import Mathlib

/-!
A shallow embedding of the token-budget batching and hierarchical map-reduce
summarization pipeline of `src/feedbin_summarize.ts`, and theorems settling
the specification's claims about it.

Conventions of the embedding:
* JavaScript numbers used as token counts, indices and HTTP statuses are
  embedded as `Nat`; millisecond timestamps as `Int`; JSON numeric fields
  (`confidence`) as `Rat`.
* Asynchronous fallible calls are embedded as `Except`-returning functions;
  the outcome of an outbound network call is an explicit input (an oracle
  argument), since the provider is outside the repository.
* The single-threaded cooperative worker pool drains its queue one item per
  step; completion order only affects the aggregate order of facts, which no
  claim below depends on, so extraction over batches is embedded as a
  sequential drain of the queue.
-/

namespace FeedbinSummarize

/-- An input article record (`type Article` in the source): `published` is an
optional ISO timestamp, `extractedContent` the plain text. -/
structure Article where
  url : String
  published : Option String
  extractedContent : String
  deriving DecidableEq, Repr

/-- Configurable constant `OPENAI_MODEL` of the source. -/
def OPENAI_MODEL : String := "gpt-5-mini"

/-- Configurable constant `MAX_INPUT_TOKENS` of the source. -/
def MAX_INPUT_TOKENS : Nat := 12000

/-- Configurable constant `MAX_OUTPUT_TOKENS` of the source. -/
def MAX_OUTPUT_TOKENS : Nat := 3000

/-- Configurable constant `REQUEST_CONCURRENCY` of the source. -/
def REQUEST_CONCURRENCY : Nat := 10

/-- `estimateTokens`: rough token estimator, `Math.ceil(text.length / 4)`.
JavaScript's `length` counts UTF-16 code units; the embedding counts
characters, which agrees on the ASCII text the estimator is specified for. -/
def estimateTokens (text : String) : Nat := (text.length + 3) / 4

/-- The per-request instruction allowance, local constant `systemOverhead`
in `batchArticles`. -/
def systemOverhead : Nat := 800

/-- The batch ceiling, local constant `maxInput` in `batchArticles`:
`Math.max(3000, MAX_INPUT_TOKENS - systemOverhead - MAX_OUTPUT_TOKENS)`. -/
def maxInput : Nat := max 3000 (MAX_INPUT_TOKENS - systemOverhead - MAX_OUTPUT_TOKENS)

/-- The estimated cost of one article inside `batchArticles`:
`estimateTokens(art.extractedContent) + 50` (the 50 covers url + meta). -/
def approxCost (art : Article) : Nat := estimateTokens art.extractedContent + 50

/-- The loop of `batchArticles`: `current` is the batch under construction and
`currentTokens` its running total; a full batch is flushed before the next
article is appended, and the final non-empty batch is flushed at the end. -/
def batchLoop : List Article → List Article → Nat → List (List Article)
  | [], current, _ => if current = [] then [] else [current]
  | art :: rest, current, currentTokens =>
    let approx := approxCost art
    if currentTokens + approx > maxInput ∧ current ≠ [] then
      current :: batchLoop rest [art] approx
    else
      batchLoop rest (current ++ [art]) (currentTokens + approx)

/-- `batchArticles`: group articles into ordered batches under the token
ceiling, starting from an empty batch and a zero running total. -/
def batchArticles (articles : List Article) : List (List Article) :=
  batchLoop articles [] 0

/-- The summed estimated token cost of a batch. -/
def sumCost (batch : List Article) : Nat := (batch.map approxCost).sum

/-- A small concrete article used by witnesses. -/
def sampleArticle : Article :=
  { url := "https://example.com/a", published := none, extractedContent := "short content" }

/-- The data of a thrown JavaScript error as the pipeline inspects it:
`status` is `err?.response?.status` (`none` when the optional chain yields
`undefined`), `dataMsg` and `dataType` are `err?.response?.data?.error?.message`
and `...?.type`, and `message` is `err.message`. -/
structure JsError where
  status : Option Nat
  dataMsg : Option String
  dataType : Option String
  message : String
  deriving DecidableEq, Repr

/-- The retriability test inside `withRetry`:
`status === 429 || status >= 500 || !status`. An absent status (`undefined`)
makes `!status` true, as does the falsy number 0; `undefined >= 500` is false. -/
def retriable (e : JsError) : Bool :=
  match e.status with
  | none => true
  | some s => s == 429 || decide (500 ≤ s) || s == 0

/-- The loop of `withRetry`, made structural on `remaining = tries - attempt`:
`fn attempt` is the outcome of the 0-based `attempt`-th call; on an error the
source increments `attempt` and rethrows when `!retriable || attempt >= tries`,
otherwise sleeps (backoff is pure delay, unobservable here) and loops. The
second component of the result is the number of retries performed, i.e. the
0-based index of the attempt whose outcome is returned. -/
def withRetryLoop (fn : Nat → Except JsError α) : Nat → Nat → Except JsError α × Nat
  | attempt, 0 => (fn attempt, attempt)
  | attempt, 1 =>
    match fn attempt with
    | .ok v => (.ok v, attempt)
    | .error e => (.error e, attempt)
  | attempt, remaining + 2 =>
    match fn attempt with
    | .ok v => (.ok v, attempt)
    | .error e =>
      if retriable e then withRetryLoop fn (attempt + 1) (remaining + 1)
      else (.error e, attempt)

/-- `withRetry(fn, label, tries)`: run `fn` with up to `tries` total attempts,
retrying retriable failures. The label only decorates logging and is dropped.
The source's default is `tries = 5`. -/
def withRetry (fn : Nat → Except JsError α) (tries : Nat) : Except JsError α × Nat :=
  withRetryLoop fn 0 tries

/-- A simulated rate-limit failure (HTTP 429). -/
def err429 : JsError := { status := some 429, dataMsg := none, dataType := none, message := "Too Many Requests" }

/-- A simulated not-found failure (HTTP 404). -/
def err404 : JsError := { status := some 404, dataMsg := none, dataType := none, message := "Not Found" }

/-- The C3 scenario operation: a simulated 429 on attempts 1 and 2 (0-based
attempts 0 and 1), success on attempt 3. -/
def op429ThenOk : Nat → Except JsError String := fun n =>
  if n < 2 then .error err429 else .ok "success"

/-- The error message thrown by `callResponsesFacts` on a truncated response. -/
def truncationFactsMsg : String :=
  "OpenAI: response incomplete due to max_output_tokens. Increase MAX_OUTPUT_TOKENS or reduce input size (e.g., lower MAX_INPUT_TOKENS, or smaller batch)."

/-- The error message thrown by `callResponsesFacts` on an empty response. -/
def emptyFactsMsg : String := "OpenAI: empty response (responses)"

/-- The error message thrown by `callResponsesText` on a truncated response. -/
def truncationTextMsg : String :=
  "OpenAI: response incomplete due to max_output_tokens during text generation. Consider reducing batch size or MAX_INPUT_TOKENS."

/-- The error message thrown by `callResponsesText` on an empty response. -/
def emptyTextMsg : String := "OpenAI: empty text response"

/-- A freshly constructed `new Error(msg)`: it carries no `response` field, so
every optional-chain lookup on it yields `undefined`. -/
def plainError (msg : String) : JsError :=
  { status := none, dataMsg := none, dataType := none, message := msg }

/-- The fields of the value returned by `openai.responses.parse` that
`callResponsesFacts` inspects: `status`, `incomplete_details?.reason`,
`output_parsed` (embedded as its serialized JSON when present) and
`output_text`. -/
structure ParsedResponse where
  status : Option String
  incompleteReason : Option String
  outputParsed : Option String
  outputText : Option String
  deriving DecidableEq, Repr

/-- The outcome of the underlying `openai.responses.parse` call: either it
threw (a network/API error, possibly carrying an HTTP status) or it returned
a response object. -/
inductive ApiResult where
  | thrown (e : JsError)
  | returned (r : ParsedResponse)
  deriving DecidableEq, Repr

/-- The tail of `callResponsesFacts` and `callResponsesText` once no usable
content was found: a truncation error when
`status === "incomplete" && incomplete_details?.reason === "max_output_tokens"`,
otherwise an empty-response error. Both are plain `new Error`s. -/
def incompleteCheck (status incompleteReason : Option String)
    (truncMsg emptyMsg : String) : Except JsError String :=
  if status = some "incomplete" ∧ incompleteReason = some "max_output_tokens" then
    .error (plainError truncMsg)
  else
    .error (plainError emptyMsg)

/-- `callResponsesFacts`: return `JSON.stringify(output_parsed)` when present,
else a non-blank `output_text`, else raise the truncation or empty error. An
exception from the underlying call propagates unchanged. -/
def callResponsesFacts (res : ApiResult) : Except JsError String :=
  match res with
  | .thrown e => .error e
  | .returned r =>
    match r.outputParsed with
    | some op => .ok op
    | none =>
      match r.outputText with
      | some content =>
        if content.trim = "" then
          incompleteCheck r.status r.incompleteReason truncationFactsMsg emptyFactsMsg
        else .ok content
      | none => incompleteCheck r.status r.incompleteReason truncationFactsMsg emptyFactsMsg

/-- The `${status || "no-status"}` fragment of the wrapped error messages:
an absent status, like the falsy number 0, prints as `no-status`. -/
def statusPart (st : Option Nat) : String :=
  match st with
  | some s => if s = 0 then "no-status" else toString s
  | none => "no-status"

/-- The `a || b` fallback on optional strings: an absent or empty (falsy)
first operand yields the second. -/
def orElseStr (a : Option String) (b : String) : String :=
  match a with
  | some s => if s = "" then b else s
  | none => b

/-- The `new Error` built in the catch block of `callOpenAIFacts`: a fresh
error whose message interpolates the caught error's data and which carries no
`response` field of its own (so no `response.status`). -/
def wrapFactsError (e : JsError) : JsError :=
  { status := none, dataMsg := none, dataType := none,
    message := "OpenAI request failed (" ++ statusPart e.status ++ ") for model '" ++
      OPENAI_MODEL ++ "' via Responses API: " ++ orElseStr e.dataMsg e.message ++
      " [type=" ++ orElseStr e.dataType "unknown" ++ "]" }

/-- `callOpenAIFacts`: run `callResponsesFacts` and rethrow any failure as the
freshly constructed wrapped error. -/
def callOpenAIFacts (res : ApiResult) : Except JsError String :=
  match callResponsesFacts res with
  | .ok s => .ok s
  | .error e => .error (wrapFactsError e)

/-- The fields of the value returned by `openai.responses.create` that
`callResponsesText` inspects. -/
structure CreateResult where
  status : Option String
  incompleteReason : Option String
  outputText : Option String
  deriving DecidableEq, Repr

/-- The outcome of the underlying `openai.responses.create` call. -/
inductive TextApiResult where
  | thrown (e : JsError)
  | returned (r : CreateResult)
  deriving DecidableEq, Repr

/-- `callResponsesText`: return a non-blank `output_text`, else raise the
truncation or empty-text error. -/
def callResponsesText (res : TextApiResult) : Except JsError String :=
  match res with
  | .thrown e => .error e
  | .returned r =>
    match r.outputText with
    | some outputText =>
      if outputText.trim = "" then
        incompleteCheck r.status r.incompleteReason truncationTextMsg emptyTextMsg
      else .ok outputText
    | none => incompleteCheck r.status r.incompleteReason truncationTextMsg emptyTextMsg

/-- The `new Error` built in the catch block of `callOpenAIText`; like
`wrapFactsError` it carries no `response` field. -/
def wrapTextError (e : JsError) : JsError :=
  { status := none, dataMsg := none, dataType := none,
    message := "OpenAI text request failed (" ++ statusPart e.status ++ ") for model '" ++
      OPENAI_MODEL ++ "': " ++ orElseStr e.dataMsg e.message ++
      " [type=" ++ orElseStr e.dataType "unknown" ++ "]" }

/-- `callOpenAIText`: run `callResponsesText` and rethrow any failure as the
freshly constructed wrapped error. -/
def callOpenAIText (res : TextApiResult) : Except JsError String :=
  match callResponsesText res with
  | .ok s => .ok s
  | .error e => .error (wrapTextError e)

/-- A response reporting truncation by the output-length ceiling, with no
parsed output and no output text. -/
def truncatedFactsResponse : ParsedResponse :=
  { status := some "incomplete", incompleteReason := some "max_output_tokens",
    outputParsed := none, outputText := none }

/-- A structured fact record (`type Fact` in the source). JSON numbers are
embedded as `Rat`; `published` is nullable. -/
structure Fact where
  url : String
  published : Option String
  isGamingRelated : Bool
  categories : List String
  summary : String
  signals : List String
  companies : List String
  regions : List String
  confidence : Rat
  deriving DecidableEq, Repr

/-- The numeric constraints of a JSON-schema number property. -/
structure NumberSchema where
  minimum : Option Rat
  maximum : Option Rat
  deriving DecidableEq, Repr

/-- `FACT_ITEM_SCHEMA.properties.confidence`: `minimum: 0, maximum: 1`. -/
def confidenceSchema : NumberSchema := { minimum := some 0, maximum := some 1 }

/-- `FACT_ITEM_SCHEMA.properties.signals.maxItems`. -/
def signalsMaxItems : Nat := 6

/-- Validity of a `Fact` under `FACT_ITEM_SCHEMA`: field presence and string,
boolean and array typing are carried by the `Fact` type itself, leaving the
schema's numeric bounds on `confidence` and the `maxItems` bound on
`signals`. The schema is declared to the provider (`strict: true` structured
outputs); the pipeline itself never evaluates it on parsed data. -/
def factMatchesSchema (f : Fact) : Bool :=
  (confidenceSchema.minimum.all fun m => decide (m ≤ f.confidence)) &&
  (confidenceSchema.maximum.all fun m => decide (f.confidence ≤ m)) &&
  decide (f.signals.length ≤ signalsMaxItems)

/-- The shape of a successfully `JSON.parse`d structured-extraction payload as
the per-batch handler distinguishes it: a JSON array (`Array.isArray`), an
object whose `facts` property may be absent, or any other JSON value. -/
inductive ParsedJson where
  | array (facts : List Fact)
  | object (facts : Option (List Fact))
  | other
  deriving DecidableEq, Repr

/-- The per-batch response handling in `extractFactsInBatches`'s worker.
`JSON.parse(content)` throwing is embedded as `none`. On an array the array
itself is taken as the facts, on an object its `facts` property; when that
property is absent (or the value is neither array nor object) `parsed` is
`undefined` and the later `parsed.length` access throws a TypeError inside
the same try block. Either throw is caught, logged and rethrown, failing the
batch. Facts are delivered as parsed, with no further validation. -/
def parseBatchContent (parsed : Option ParsedJson) : Except String (List Fact) :=
  match parsed with
  | none => .error "JSON parse failed"
  | some (.array facts) => .ok facts
  | some (.object (some facts)) => .ok facts
  | some (.object none) => .error "TypeError: parsed is undefined"
  | some .other => .error "TypeError: parsed is undefined"

/-- One row of `feedbin_articles.json` after the JavaScript coercions in
`loadArticles`: `url` is `String(row.url)`, `published` keeps `none` for a
falsy value, `extractedContent` is `""` when falsy. -/
structure RawRow where
  url : String
  published : Option String
  extractedContent : String
  deriving DecidableEq, Repr

/-- `loadArticles`: a missing JSON file exits the process with a failure
(`.error`); otherwise rows are mapped to articles (a falsy `published`
becomes `undefined`) and filtered to those with truthy (non-empty) `url` and
`extractedContent`. -/
def loadArticles (file : Option (List RawRow)) : Except Unit (List Article) :=
  match file with
  | none => .error ()
  | some rows =>
    .ok ((rows.map fun row =>
      ({ url := row.url,
         published := row.published.bind fun p => if p = "" then none else some p,
         extractedContent := row.extractedContent } : Article)).filter
      fun a => a.url != "" && a.extractedContent != "")

/-- The worker drain of `extractFactsInBatches` over the batch queue, embedded
sequentially (see the header note on the single-threaded worker pool). For
the batch at queue position `i`, the oracle `responses i` gives the
`JSON.parse` outcome of the retry-wrapped call's content. Returns the
aggregated facts (`results.flat()`) or a failing batch's error, together with
the number of extraction requests issued along the way. -/
def extractLoop (responses : Nat → Option ParsedJson) :
    Nat → List (List Article) → Except String (List Fact) × Nat
  | _, [] => (.ok [], 0)
  | i, _batch :: rest =>
    match parseBatchContent (responses i) with
    | .error e => (.error e, 1)
    | .ok facts =>
      match extractLoop responses (i + 1) rest with
      | (.ok more, n) => (.ok (facts ++ more), n + 1)
      | (.error e, n) => (.error e, n + 1)

/-- `chunkArray`: consecutive slices of length `size`
(`for (let i = 0; i < arr.length; i += size)`). The source calls it only with
`size = 80`; a zero `size`, an infinite loop in JavaScript, is mapped to `[]`. -/
def chunkArray (arr : List α) (size : Nat) : List (List α) :=
  if h : arr.isEmpty then []
  else if hs : size = 0 then []
  else arr.take size :: chunkArray (arr.drop size) size
termination_by arr.length
decreasing_by
  simp only [List.length_drop]
  have hne : arr ≠ [] := fun he => h (by simp [he])
  have hpos : 0 < arr.length := List.length_pos.mpr hne
  omega

/-- Civil date to days since the Unix epoch (Howard Hinnant's
`days_from_civil`); models ECMA-262 UTC date arithmetic for `Date.parse`. -/
def daysFromCivil (y : Int) (m d : Nat) : Int :=
  let yAdj : Int := if m ≤ 2 then y - 1 else y
  let era : Int := Int.fdiv yAdj 400
  let yoe : Int := yAdj - era * 400
  let mp : Nat := (m + 9) % 12
  let doy : Int := Int.ofNat ((153 * mp + 2) / 5 + (d - 1))
  let doe : Int := yoe * 365 + Int.fdiv yoe 4 - Int.fdiv yoe 100 + doy
  era * 146097 + doe - 719468

/-- Days since the Unix epoch to the civil date (year, month, day); the
inverse `civil_from_days`, modelling `toISOString`'s UTC date fields. -/
def civilFromDays (z : Int) : Int × Nat × Nat :=
  let zs := z + 719468
  let era := Int.fdiv zs 146097
  let doe := zs - era * 146097
  let yoe := Int.fdiv (doe - Int.fdiv doe 1460 + Int.fdiv doe 36524 - Int.fdiv doe 146096) 365
  let y := yoe + era * 400
  let doy := doe - (365 * yoe + Int.fdiv yoe 4 - Int.fdiv yoe 100)
  let mp := Int.fdiv (5 * doy + 2) 153
  let d := (doy - Int.fdiv (153 * mp + 2) 5 + 1).toNat
  let m := (if mp < 10 then mp + 3 else mp - 9).toNat
  (if m ≤ 2 then y + 1 else y, m, d)

/-- Split a character list at every occurrence of the separator `c` (the
splitting of `String.split`-style parsing, over the string's characters). -/
def splitOnChar (c : Char) : List Char → List (List Char)
  | [] => [[]]
  | x :: rest =>
    match splitOnChar c rest, decide (x = c) with
    | r, true => [] :: r
    | [], false => [[x]]
    | g :: gs, false => (x :: g) :: gs

/-- A fixed-width all-digit numeral, as a natural number. -/
def parseFixedNat (l : List Char) (len : Nat) : Option Nat :=
  if l.length = len ∧ l.all Char.isDigit then
    some (l.foldl (fun acc c => acc * 10 + (c.toNat - 48)) 0)
  else none

/-- Gregorian leap-year test. -/
def isLeapYear (y : Int) : Bool :=
  decide ((Int.emod y 4 = 0 ∧ Int.emod y 100 ≠ 0) ∨ Int.emod y 400 = 0)

/-- Days in a month of the proleptic Gregorian calendar. -/
def daysInMonth (y : Int) (m : Nat) : Nat :=
  if m = 2 then (if isLeapYear y then 29 else 28)
  else if m = 4 ∨ m = 6 ∨ m = 9 ∨ m = 11 then 30
  else 31

/-- The `YYYY-MM-DD` part of an ISO date string, as year, month, day. -/
def parseDatePart (s : List Char) : Option (Int × Nat × Nat) :=
  match splitOnChar '-' s with
  | [ys, ms, ds] => do
    let y ← parseFixedNat ys 4
    let m ← parseFixedNat ms 2
    let d ← parseFixedNat ds 2
    if 1 ≤ m ∧ m ≤ 12 ∧ 1 ≤ d ∧ d ≤ daysInMonth (Int.ofNat y) m then
      some (Int.ofNat y, m, d)
    else none
  | _ => none

/-- The `HH:MM` or `HH:MM:SS` part of an ISO time string, as seconds. -/
def parseTimePart (s : List Char) : Option Nat :=
  match splitOnChar ':' s with
  | [hs, ms] => do
    let h ← parseFixedNat hs 2
    let mi ← parseFixedNat ms 2
    if h ≤ 23 ∧ mi ≤ 59 then some (h * 3600 + mi * 60) else none
  | [hs, ms, ss] => do
    let h ← parseFixedNat hs 2
    let mi ← parseFixedNat ms 2
    let sec ← parseFixedNat ss 2
    if h ≤ 23 ∧ mi ≤ 59 ∧ sec ≤ 59 then some (h * 3600 + mi * 60 + sec) else none
  | _ => none

/-- Embedding of the host builtin `Date.parse` on the ECMA-262 date-time
string formats the pipeline feeds it, as epoch milliseconds: `YYYY-MM-DD` and
`YYYY-MM-DDTHH:MM(:SS)Z` (all UTC). `Date.parse` is not repository code;
strings outside this subset (including environment-dependent local-time
forms) are mapped to unparseable (`NaN`, i.e. `none`). -/
def dateParse (s : String) : Option Int :=
  match splitOnChar 'T' s.toList with
  | [d] => do
    let c ← parseDatePart d
    some (daysFromCivil c.1 c.2.1 c.2.2 * 86400000)
  | [d, t] =>
    if t.getLast? = some 'Z' then do
      let c ← parseDatePart d
      let secs ← parseTimePart t.dropLast
      some (daysFromCivil c.1 c.2.1 c.2.2 * 86400000 + Int.ofNat (secs * 1000))
    else none
  | _ => none

/-- Left-pad a numeral with zeros to a fixed width, as `toISOString` prints
its date fields. -/
def padNum (width n : Nat) : String :=
  let s := toString n
  String.mk (List.replicate (width - s.length) '0') ++ s

/-- The `fmt` helper inside `computeTimeWindow`:
`new Date(ms).toISOString().slice(0, 10)`, the UTC `YYYY-MM-DD` of an epoch
millisecond timestamp. -/
def fmtDate (ms : Int) : String :=
  let day := Int.fdiv ms 86400000
  let c := civilFromDays day
  padNum 4 c.1.toNat ++ "-" ++ padNum 2 c.2.1 ++ "-" ++ padNum 2 c.2.2

/-- The parseable publication timestamps of a fact list, in input order:
`facts.map(f => f.published ? Date.parse(f.published) : NaN).filter(n => !isNaN(n))`
(a falsy empty `published` is also unparseable). -/
def publishedDates (facts : List Fact) : List Int :=
  (facts.map fun f => f.published.bind dateParse).filterMap id

/-- `computeTimeWindow`: sort the parseable timestamps ascending
(`.sort((a, b) => a - b)`); an empty list yields the placeholder
`"the last week"`, otherwise `fmt(dates[0]) to fmt(dates[dates.length - 1])`. -/
def computeTimeWindow (facts : List Fact) : String :=
  match List.insertionSort (· ≤ ·) (publishedDates facts) with
  | [] => "the last week"
  | d0 :: rest => fmtDate d0 ++ " to " ++ fmtDate (rest.getLastD d0)

/-- `buildExecutivePrompt`: the executive-report instruction block,
parameterized by the computed time window. -/
def buildExecutivePrompt (timeWindow : String) : String :=
  String.intercalate "\n" [
    "You are a senior games industry analyst. Produce a weekly, executive-ready report strictly from the provided items (no outside facts, no guessing, no hallucinations).",
    "",
    "Audience: Reaktor — a global consultancy that serves the games industry (we don’t develop games; we build digital products and services around it for studios, publishers, and ecosystem providers). We want to grow globally in this sector.",
    "",
    "Scope:",
    "- Consider only items relevant to the gaming industry (games, platforms, publishers, studios, distribution, tooling, regulations, monetization, etc.).",
    "- Prioritize macro/industry-wide signals: earnings, interim reports, layoffs, investments, acquisitions, divestitures, strategy shifts, platform policy changes, major partnerships, or tech moves.",
    "- Ignore individual game release notes unless there is a clear, reported financial or strategic impact for a studio/publisher/platform.",
    "",
    "You are analyzing a CSV-derived dataset of last week’s news articles with columns: url, published (ISO), extractedContent. Base all analysis only on extractedContent. Cover the entire dataset.",
    "Time window to reference: " ++ timeWindow ++ ".",
    "",
    "Output format (Markdown only):",
    "- Start with one sentence stating the week/time window and what you analyzed.",
    "- Then a numbered list of the top 1–5 most important highlights/trends. Each item:",
    "  - is concise but insight-dense (what happened, why it matters, who is impacted, likely implications for the industry),",
    "  - ends with one or more citations to the provided item urls, formatted as [source](url).",
    "- End with a synthesis (max 2 short paragraphs) on what these developments mean for Reaktor’s business development (where we could help, e.g., platform strategy, data, live-ops, tooling, infrastructure, personalization, experimentation, commerce, analytics, AI enablement, etc.).",
    "",
    "Rules:",
    "- Use only the provided items; do not add external knowledge.",
    "- Be precise and cautious: if a conclusion is uncertain based on the text, say so explicitly.",
    "- De-duplicate: merge highly similar items into one point with multiple [source](url) links.",
    "- English language, professional tone."
  ]

/-- The map-step user message for one chunk; `JSON.stringify` of the chunk is
supplied by the serialization parameter (a host builtin). -/
def chunkUserPrompt (stringify : List Fact → String) (part : List Fact) : String :=
  "You will receive structured facts (JSON).\n\nTask: Create a short bullet summary focusing ONLY on gaming-industry-related items (isGamingRelated=true).\n- Highlight business-wide themes (earnings, layoffs, investments, M&A, trends).\n- Provide 3-6 bullets, each with a short title and a \"[source]\" link to the most representative URL from the chunk.\n- Keep it under 250 words.\n\nFacts JSON:\n" ++ stringify part

/-- The per-section label of the final reduce prompt: a 0-based summary
position `i` is printed as chunk index `i + 1`. -/
def chunkSectionLabel (i : Nat) : String := "---\n[Chunk " ++ toString (i + 1) ++ "]\n"

/-- `miniSummaries.map((s, i) => ...)`: each mini summary prefixed by its
chunk label, from 0-based position `i`. -/
def chunkSectionsFrom (i : Nat) : List String → List String
  | [] => []
  | s :: rest => (chunkSectionLabel i ++ s) :: chunkSectionsFrom (i + 1) rest

/-- The labeled chunk sections of the final reduce prompt, in order. -/
def chunkSections (miniSummaries : List String) : List String :=
  chunkSectionsFrom 0 miniSummaries

/-- The `combinedFactsNote` constant of `reduceToReport`. -/
def combinedFactsNote : String :=
  "The following are partial summaries created from the dataset in chunks. Merge them into a single weekly brief."

/-- The user message of the single final reduce call: the executive prompt,
the note, and the labeled chunk briefs joined by blank lines. -/
def finalUserPrompt (facts : List Fact) (miniSummaries : List String) : String :=
  buildExecutivePrompt (computeTimeWindow facts) ++ "\n\n" ++ combinedFactsNote ++
    "\n\nChunk briefs:\n" ++ String.intercalate "\n\n" (chunkSections miniSummaries) ++
    "\n\nProduce the final brief now in Markdown only."

/-- `reduceToReport`, with the outcome of every retry-wrapped text call given
by the oracle `callText` on the call's user message: chunk the facts with
size 80, produce the mini summaries strictly in chunk order, then issue the
one final reduce call. Returns the final report and the mini summaries. -/
def reduceToReport (stringify : List Fact → String) (callText : String → String)
    (facts : List Fact) : String × List String :=
  let chunks := chunkArray facts 80
  let miniSummaries := chunks.map fun part => callText (chunkUserPrompt stringify part)
  (callText (finalUserPrompt facts miniSummaries), miniSummaries)

/-- The observable outcome of a run of `main`: the process exit code and the
final report file's content, when one is written. -/
structure RunOutcome where
  exitCode : Nat
  reportFile : Option String
  deriving DecidableEq, Repr

/-- The number of model requests a run issues, by kind. -/
structure CallCounts where
  extractCalls : Nat
  chunkCalls : Nat
  finalCalls : Nat
  deriving DecidableEq, Repr

/-- `main` under oracles: load the articles, extract facts per batch, reduce
to the report and write it; any error exits with code 1 and writes no report
file. The second component counts the model calls issued: one structured
extraction request per attempted batch, one text request per chunk and one
final reduce request. -/
def runModel (file : Option (List RawRow)) (responses : Nat → Option ParsedJson)
    (stringify : List Fact → String) (callText : String → String) :
    RunOutcome × CallCounts :=
  match loadArticles file with
  | .error _ => (⟨1, none⟩, ⟨0, 0, 0⟩)
  | .ok articles =>
    match extractLoop responses 0 (batchArticles articles) with
    | (.error _, n) => (⟨1, none⟩, ⟨n, 0, 0⟩)
    | (.ok facts, n) =>
      let r := reduceToReport stringify callText facts
      (⟨0, some r.1⟩, ⟨n, (chunkArray facts 80).length, 1⟩)

/-- The article row used by concrete witnesses: usable url and content. -/
def sampleRow : RawRow :=
  { url := "https://example.com/a", published := none, extractedContent := "short content" }

/-- A fact whose confidence lies outside [0,1], as a raw-text response's JSON
could contain. -/
def overconfidentFact : Fact :=
  { url := "https://example.com/a", published := none, isGamingRelated := true,
    categories := [], summary := "s", signals := [], companies := [], regions := [],
    confidence := 2 }

/-- A fact with an in-range confidence. -/
def inRangeFact : Fact :=
  { url := "https://example.com/a", published := none, isGamingRelated := true,
    categories := [], summary := "s", signals := [], companies := [], regions := [],
    confidence := 1 }

/-- A row whose article is filtered out: empty extracted content. -/
def contentlessRow : RawRow :=
  { url := "https://example.com/a", published := none, extractedContent := "" }

/-- A plain fact used by concrete witnesses. -/
def sampleFact : Fact :=
  { url := "https://example.com/a", published := none, isGamingRelated := false,
    categories := [], summary := "s", signals := [], companies := [], regions := [],
    confidence := 1 }

/-- A fact published 2024-01-03T00:00:00Z. -/
def factJan3 : Fact :=
  { url := "https://example.com/jan3", published := some "2024-01-03T00:00:00Z",
    isGamingRelated := true, categories := [], summary := "a", signals := [],
    companies := [], regions := [], confidence := 1 }

/-- A fact published 2024-01-09T00:00:00Z. -/
def factJan9 : Fact :=
  { url := "https://example.com/jan9", published := some "2024-01-09T00:00:00Z",
    isGamingRelated := true, categories := [], summary := "b", signals := [],
    companies := [], regions := [], confidence := 1 }

/-- A fact with a null `published`. -/
def factNoDate : Fact :=
  { url := "https://example.com/nodate", published := none,
    isGamingRelated := true, categories := [], summary := "c", signals := [],
    companies := [], regions := [], confidence := 1 }

theorem batchLoop_flatten (articles : List Article) :
    ∀ current currentTokens,
      (batchLoop articles current currentTokens).flatten = current ++ articles := by
  induction articles with
  | nil =>
    intro current t
    by_cases h : current = [] <;> simp [batchLoop, h]
  | cons art rest ih =>
    intro current t
    simp only [batchLoop]
    split
    · simp [ih]
    · simp [ih]

theorem sumCost_append_single (batch : List Article) (art : Article) :
    sumCost (batch ++ [art]) = sumCost batch + approxCost art := by
  simp [sumCost]

theorem batchLoop_ceiling (articles : List Article) :
    ∀ current t, t = sumCost current →
      (current = [] ∨ sumCost current ≤ maxInput ∨
        ∃ art, current = [art] ∧ maxInput < approxCost art) →
      ∀ b ∈ batchLoop articles current t,
        sumCost b ≤ maxInput ∨ ∃ art, b = [art] ∧ maxInput < approxCost art := by
  induction articles with
  | nil =>
    intro current t ht hcur b hb
    by_cases h : current = []
    · simp [batchLoop, h] at hb
    · simp [batchLoop, h] at hb
      subst hb
      rcases hcur with h' | h'
      · exact absurd h' h
      · exact h'
  | cons art rest ih =>
    intro current t ht hcur b hb
    simp only [batchLoop] at hb
    split at hb
    · next hcond =>
      rcases List.mem_cons.mp hb with rfl | hb'
      · rcases hcur with h' | h'
        · exact absurd h' hcond.2
        · exact h'
      · refine ih [art] (approxCost art) (by simp [sumCost]) ?_ b hb'
        rcases le_or_lt (approxCost art) maxInput with hle | hgt
        · exact Or.inr (Or.inl (by simpa [sumCost] using hle))
        · exact Or.inr (Or.inr ⟨art, rfl, hgt⟩)
    · next hcond =>
      rcases Decidable.not_and_iff_or_not.mp hcond with hfit | hemp
      · have hfit' : t + approxCost art ≤ maxInput := le_of_not_lt hfit
        refine ih (current ++ [art]) (t + approxCost art)
          (by simp [sumCost_append_single, ht]) ?_ b hb
        exact Or.inr (Or.inl (by rw [sumCost_append_single, ← ht]; exact hfit'))
      · have hcur' : current = [] := not_not.mp hemp
        subst hcur'
        refine ih [art] (t + approxCost art)
          (by simp [sumCost, ht.symm ▸ (by simp [sumCost] : sumCost ([] : List Article) = 0)]) ?_ b hb
        rcases le_or_lt (approxCost art) maxInput with hle | hgt
        · exact Or.inr (Or.inl (by simpa [sumCost] using hle))
        · exact Or.inr (Or.inr ⟨art, rfl, hgt⟩)

/-- C1: for every article list (in particular every non-empty one), the
batches produced by `batchArticles`, concatenated in order, equal the input
list in its original order: no article is dropped, duplicated or reordered. -/
theorem c1_batchArticles_flatten (articles : List Article) :
    (batchArticles articles).flatten = articles := by
  simpa using batchLoop_flatten articles [] 0

/-- C2: every batch produced by `batchArticles` has summed estimated cost
(per-article `estimateTokens` plus the fixed overhead of 50) at most the
ceiling `max 3000 (MAX_INPUT_TOKENS - systemOverhead - MAX_OUTPUT_TOKENS)`,
unless it is a single article whose own cost alone exceeds that ceiling. -/
theorem c2_batch_token_ceiling (articles : List Article) (b : List Article)
    (hb : b ∈ batchArticles articles) :
    (sumCost b ≤ maxInput ∨ ∃ art, b = [art] ∧ maxInput < approxCost art) ∧
      maxInput = max 3000 (MAX_INPUT_TOKENS - systemOverhead - MAX_OUTPUT_TOKENS) := by
  refine ⟨?_, rfl⟩
  exact batchLoop_ceiling articles [] 0 (by simp [sumCost]) (Or.inl rfl) b hb

/-- Witness for C2 at a concrete input: the singleton batch formed from
`sampleArticle` satisfies the ceiling disjunction. -/
theorem c2_batch_token_ceiling_witness :
    (sumCost [sampleArticle] ≤ maxInput ∨
      ∃ art, [sampleArticle] = [art] ∧ maxInput < approxCost art) ∧
      maxInput = max 3000 (MAX_INPUT_TOKENS - systemOverhead - MAX_OUTPUT_TOKENS) :=
  c2_batch_token_ceiling [sampleArticle] [sampleArticle] (by decide)

/-- C3: `withRetry` classifies a failure as retriable exactly when its HTTP
status is 429, any 5xx, or absent (over the HTTP status range 100-599); the
429-429-success operation under 5 attempts returns the success value after
exactly 2 retries; a 404 on the first attempt raises immediately with zero
retries. -/
theorem c3_withRetry_classification :
    (∀ s : Nat, 100 ≤ s → s ≤ 599 →
      (retriable { status := some s, dataMsg := none, dataType := none, message := "m" } = true ↔
        (s = 429 ∨ (500 ≤ s ∧ s ≤ 599)))) ∧
    retriable { status := none, dataMsg := none, dataType := none, message := "m" } = true ∧
    withRetry op429ThenOk 5 = (.ok "success", 2) ∧
    withRetry (fun _ => (.error err404 : Except JsError String)) 5 = (.error err404, 0) := by
  refine ⟨?_, rfl, rfl, rfl⟩
  intro s h1 h2
  simp only [retriable, Bool.or_eq_true, beq_iff_eq, decide_eq_true_eq]
  omega

theorem withRetryLoop_const_error (fn : Nat → Except JsError α) (e : JsError)
    (hfn : ∀ n, fn n = .error e) (hr : retriable e = true) :
    ∀ remaining attempt, (withRetryLoop fn attempt (remaining + 1)).2 = attempt + remaining := by
  intro remaining
  induction remaining with
  | zero => intro attempt; simp [withRetryLoop, hfn]
  | succ k ih =>
    intro attempt
    have hstep : withRetryLoop fn attempt (k + 2) = withRetryLoop fn (attempt + 1) (k + 1) := by
      simp [withRetryLoop, hfn, hr]
    rw [show k + 1 + 1 = k + 2 from rfl, hstep, ih]
    omega

/-- C4 counterexample: when the model reports `incomplete` with reason
`max_output_tokens`, the raised error (being a fresh `Error` with no
`response.status`) is classified retriable, and `withRetry` with 5 attempts
re-attempts the call 4 times instead of zero — the truncation error is not
treated as non-retriable. -/
theorem c4_truncation_retried_counterexample :
    callOpenAIFacts (.returned truncatedFactsResponse) =
      .error (wrapFactsError (plainError truncationFactsMsg)) ∧
    retriable (wrapFactsError (plainError truncationFactsMsg)) = true ∧
    (withRetry (fun _ => callOpenAIFacts (.returned truncatedFactsResponse)) 5).2 = 4 :=
  ⟨rfl, rfl, rfl⟩

/-- C4 amended: on a response reporting `incomplete` due to
`max_output_tokens` (and carrying no usable output), the pipeline raises a
distinct descriptive error advising the caller to raise the output budget or
reduce input size — but that error carries no HTTP status, so the retry layer
classifies it retriable and re-attempts the call until the attempt cap is
exhausted (`tries - 1` retries), rather than treating it as non-retriable. -/
theorem c4_truncation_error_amended (r : ParsedResponse)
    (h1 : r.status = some "incomplete") (h2 : r.incompleteReason = some "max_output_tokens")
    (h3 : r.outputParsed = none) (h4 : r.outputText = none) :
    ∃ e, callOpenAIFacts (.returned r) = .error e ∧
      e.message = (wrapFactsError (plainError truncationFactsMsg)).message ∧
      e.status = none ∧ retriable e = true ∧
      ∀ tries, 1 ≤ tries →
        (withRetry (fun _ => callOpenAIFacts (.returned r)) tries).2 = tries - 1 := by
  have hcall : callOpenAIFacts (.returned r) =
      .error (wrapFactsError (plainError truncationFactsMsg)) := by
    simp [callOpenAIFacts, callResponsesFacts, h1, h2, h3, h4, incompleteCheck]
  refine ⟨wrapFactsError (plainError truncationFactsMsg), hcall, rfl, rfl, rfl, ?_⟩
  intro tries htries
  obtain ⟨k, rfl⟩ : ∃ k, tries = k + 1 := ⟨tries - 1, by omega⟩
  have h := withRetryLoop_const_error (fun _ => callOpenAIFacts (.returned r))
    (wrapFactsError (plainError truncationFactsMsg)) (fun _ => hcall) rfl k 0
  simpa [withRetry] using h

/-- Witness for C4 (amended) at the concrete truncated response. -/
theorem c4_truncation_error_amended_witness :
    ∃ e, callOpenAIFacts (.returned truncatedFactsResponse) = .error e ∧
      e.message = (wrapFactsError (plainError truncationFactsMsg)).message ∧
      e.status = none ∧ retriable e = true ∧
      ∀ tries, 1 ≤ tries →
        (withRetry (fun _ => callOpenAIFacts (.returned truncatedFactsResponse)) tries).2 =
          tries - 1 :=
  c4_truncation_error_amended truncatedFactsResponse rfl rfl rfl rfl

/-- C10: every error raised by the wrappers `callOpenAIFacts` and
`callOpenAIText` is a fresh `Error` with no `response.status`, hence
classified retriable by `withRetry` — so even an underlying fatal 404 is
retried until the attempt cap is exhausted (here 5 attempts, 4 retries). -/
theorem c10_wrapped_errors_always_retriable :
    (∀ res e, callOpenAIFacts res = .error e → e.status = none ∧ retriable e = true) ∧
    (∀ res e, callOpenAIText res = .error e → e.status = none ∧ retriable e = true) ∧
    withRetry (fun _ => callOpenAIFacts (.thrown err404)) 5 =
      (.error (wrapFactsError err404), 4) := by
  refine ⟨?_, ?_, rfl⟩
  · intro res e h
    unfold callOpenAIFacts at h
    cases hc : callResponsesFacts res with
    | ok s => rw [hc] at h; cases h
    | error e0 => rw [hc] at h; cases h; exact ⟨rfl, rfl⟩
  · intro res e h
    unfold callOpenAIText at h
    cases hc : callResponsesText res with
    | ok s => rw [hc] at h; cases h
    | error e0 => rw [hc] at h; cases h; exact ⟨rfl, rfl⟩

/-- Witness for C10 at a concrete input: the wrapper's error for an
underlying 404 has no status and is retriable. -/
theorem c10_wrapped_errors_always_retriable_witness :
    (wrapFactsError err404).status = none ∧ retriable (wrapFactsError err404) = true :=
  c10_wrapped_errors_always_retriable.1 (.thrown err404) (wrapFactsError err404) rfl

/-- Witness for C3 at a concrete status: 503 (a 5xx) is classified retriable. -/
theorem c3_withRetry_classification_witness :
    retriable { status := some 503, dataMsg := none, dataType := none, message := "m" } = true :=
  (c3_withRetry_classification.1 503 (by decide) (by decide)).mpr (Or.inr (by decide))

theorem extractLoop_ok_parses (responses : Nat → Option ParsedJson) :
    ∀ (batches : List (List Article)) (start : Nat) (facts : List Fact) (n : Nat),
      extractLoop responses start batches = (.ok facts, n) →
      ∀ i, i < batches.length → ∃ fs, parseBatchContent (responses (start + i)) = .ok fs := by
  intro batches
  induction batches with
  | nil => intro start facts n _ i hi; simp at hi
  | cons b rest ih =>
    intro start facts n h i hi
    simp only [extractLoop] at h
    cases hp : parseBatchContent (responses start) with
    | error e => rw [hp] at h; simp at h
    | ok fs =>
      rw [hp] at h
      cases i with
      | zero => exact ⟨fs, by simpa using hp⟩
      | succ j =>
        cases hrec : extractLoop responses (start + 1) rest with
        | mk res m =>
          cases res with
          | ok more =>
            obtain ⟨fs', hfs'⟩ :=
              ih (start + 1) more m hrec j (by simpa using Nat.lt_of_succ_lt_succ hi)
            exact ⟨fs', by rw [show start + (j + 1) = start + 1 + j by omega]; exact hfs'⟩
          | error e => rw [hrec] at h; simp at h

/-- C5: when the structured-extraction content of some batch does not parse as
JSON, the extraction fails with the batch's error, which propagates to the
run's top level: the process exits with code 1 and no report file is
produced. -/
theorem c5_malformed_output_aborts (file : Option (List RawRow)) (articles : List Article)
    (responses : Nat → Option ParsedJson) (stringify : List Fact → String)
    (callText : String → String) (i : Nat)
    (hload : loadArticles file = .ok articles)
    (hi : i < (batchArticles articles).length)
    (hbad : responses i = none) :
    (∃ msg, (extractLoop responses 0 (batchArticles articles)).1 = .error msg) ∧
    runModel file responses stringify callText =
      ({ exitCode := 1, reportFile := none },
        { extractCalls := (extractLoop responses 0 (batchArticles articles)).2,
          chunkCalls := 0, finalCalls := 0 }) := by
  have key : ∀ facts n, extractLoop responses 0 (batchArticles articles) ≠ (.ok facts, n) := by
    intro facts n hok
    obtain ⟨fs, hfs⟩ := extractLoop_ok_parses responses _ 0 facts n hok i hi
    rw [Nat.zero_add, hbad] at hfs
    simp [parseBatchContent] at hfs
  cases hres : extractLoop responses 0 (batchArticles articles) with
  | mk res n =>
    cases res with
    | ok facts => exact absurd hres (key facts n)
    | error msg =>
      refine ⟨⟨msg, by simp [hres]⟩, ?_⟩
      simp [runModel, hload, hres]

/-- Witness for C5 at a concrete input: one batch whose response is non-JSON
aborts the run with exit code 1 and no report. -/
theorem c5_malformed_output_aborts_witness :
    (∃ msg, (extractLoop (fun _ => none) 0 (batchArticles [sampleArticle])).1 = .error msg) ∧
    runModel (some [sampleRow]) (fun _ => none) (fun _ => "[]") (fun _ => "md") =
      ({ exitCode := 1, reportFile := none },
        { extractCalls := (extractLoop (fun _ => none) 0 (batchArticles [sampleArticle])).2,
          chunkCalls := 0, finalCalls := 0 }) :=
  c5_malformed_output_aborts (some [sampleRow]) [sampleArticle] (fun _ => none)
    (fun _ => "[]") (fun _ => "md") 0 rfl (by decide) rfl

/-- C6 counterexample: the pipeline performs no clamping of `confidence` — a
response parsed as a JSON array carrying a confidence of 3/2 is delivered to
the reducer unchanged, so a fact with confidence outside [0,1] reaches it. -/
theorem c6_no_clamping_counterexample :
    parseBatchContent (some (.array [overconfidentFact])) = .ok [overconfidentFact] ∧
    ¬((0 : Rat) ≤ overconfidentFact.confidence ∧ overconfidentFact.confidence ≤ 1) :=
  ⟨rfl, by decide⟩

/-- C6 amended: the [0,1] range for `confidence` is declared in
`FACT_ITEM_SCHEMA` (`minimum: 0, maximum: 1`) and holds of every fact that
matches the schema — but it is enforced only by the provider's strict
structured-output validation: the pipeline itself performs no clamping and
delivers parsed facts to the reducer unmodified, so a fact parsed from the
raw-text path can carry a confidence outside [0,1]. -/
theorem c6_confidence_schema_amended :
    (∀ f : Fact, factMatchesSchema f = true →
      (0 : Rat) ≤ f.confidence ∧ f.confidence ≤ 1) ∧
    (∀ facts : List Fact, parseBatchContent (some (.array facts)) = .ok facts) := by
  constructor
  · intro f h
    simp only [factMatchesSchema, confidenceSchema, signalsMaxItems, Option.all,
      Bool.and_eq_true, decide_eq_true_eq] at h
    exact ⟨h.1.1, h.1.2⟩
  · intro facts; rfl

/-- Witness for C6 (amended) at a concrete schema-valid fact. -/
theorem c6_confidence_schema_amended_witness :
    (0 : Rat) ≤ inRangeFact.confidence ∧ inRangeFact.confidence ≤ 1 :=
  c6_confidence_schema_amended.1 inRangeFact (by decide)

theorem chunkArray_nil_eq (size : Nat) : chunkArray ([] : List α) size = [] := by
  unfold chunkArray
  simp

/-- C7 counterexample: with the input file present but zero articles
surviving the filter, the run does not abort before a model call — it
completes with exit code 0 and still issues exactly one model call, the final
reduce request. -/
theorem c7_empty_input_counterexample :
    runModel (some [contentlessRow]) (fun _ => none) (fun _ => "[]") (fun _ => "report") =
      ({ exitCode := 0, reportFile := some "report" },
        { extractCalls := 0, chunkCalls := 0, finalCalls := 1 }) := by
  have hload : loadArticles (some [contentlessRow]) = .ok [] := rfl
  have hred : reduceToReport (fun _ => "[]") (fun _ => "report") [] = ("report", []) := by
    simp only [reduceToReport, chunkArray_nil_eq, List.map_nil]
  simp only [runModel, hload, batchArticles, batchLoop, extractLoop, hred,
    chunkArray_nil_eq, List.length_nil]

/-- C7 amended: a missing input file aborts the run before any model call;
but when the file is present and zero articles survive the
url/extractedContent filter, the run proceeds without aborting: no extraction
request is issued (there are zero batches) and no chunk request either, yet
the final reduce request is still issued exactly once and the run completes
with exit code 0. -/
theorem c7_empty_input_amended (responses : Nat → Option ParsedJson)
    (stringify : List Fact → String) (callText : String → String) :
    runModel none responses stringify callText =
      ({ exitCode := 1, reportFile := none },
        { extractCalls := 0, chunkCalls := 0, finalCalls := 0 }) ∧
    ∀ rows : List RawRow, loadArticles (some rows) = .ok [] →
      runModel (some rows) responses stringify callText =
        ({ exitCode := 0, reportFile := some (callText (finalUserPrompt [] [])) },
          { extractCalls := 0, chunkCalls := 0, finalCalls := 1 }) := by
  refine ⟨rfl, ?_⟩
  intro rows h
  have hred : reduceToReport stringify callText [] = (callText (finalUserPrompt [] []), []) := by
    simp only [reduceToReport, chunkArray_nil_eq, List.map_nil]
  simp only [runModel, h, batchArticles, batchLoop, extractLoop, hred,
    chunkArray_nil_eq, List.length_nil]

/-- Witness for C7 (amended) at a concrete filtered-out row. -/
theorem c7_empty_input_amended_witness :
    runModel (some [contentlessRow]) (fun _ => none) (fun _ => "[]") (fun _ => "md") =
      ({ exitCode := 0, reportFile := some "md" },
        { extractCalls := 0, chunkCalls := 0, finalCalls := 1 }) :=
  (c7_empty_input_amended (fun _ => none) (fun _ => "[]") (fun _ => "md")).2
    [contentlessRow] rfl

theorem chunkArray_cons_eq (arr : List α) (size : Nat) (h : arr ≠ []) (hs : size ≠ 0) :
    chunkArray arr size = arr.take size :: chunkArray (arr.drop size) size := by
  conv_lhs => rw [chunkArray]
  simp [h, hs]

/-- C8: for an input of 200 facts with chunk size 80, the hierarchical
reducer partitions the facts into exactly 3 chunks of sizes 80, 80 and 40
preserving input order, generates exactly 3 chunk briefs (in chunk order),
and makes exactly one final reduce call whose prompt carries exactly those 3
briefs as sections labeled by chunk index 1, 2, 3 in order. -/
theorem c8_hierarchical_reducer_200 (facts : List Fact) (h : facts.length = 200)
    (stringify : List Fact → String) (callText : String → String) :
    (chunkArray facts 80).map List.length = [80, 80, 40] ∧
    (chunkArray facts 80).flatten = facts ∧
    ∃ s1 s2 s3, (reduceToReport stringify callText facts).2 = [s1, s2, s3] ∧
      chunkSections [s1, s2, s3] =
        [chunkSectionLabel 0 ++ s1, chunkSectionLabel 1 ++ s2, chunkSectionLabel 2 ++ s3] ∧
      (reduceToReport stringify callText facts).1 =
        callText (finalUserPrompt facts [s1, s2, s3]) := by
  have hne : facts ≠ [] := by intro he; rw [he] at h; simp at h
  have h80 : (facts.drop 80).length = 120 := by simp [h]
  have h160 : ((facts.drop 80).drop 80).length = 40 := by simp [h]
  have hd1 : facts.drop 80 ≠ [] := by
    intro he; rw [he] at h80; simp at h80
  have hd2 : (facts.drop 80).drop 80 ≠ [] := by
    intro he; rw [he] at h160; simp at h160
  have hd3 : ((facts.drop 80).drop 80).drop 80 = [] := by
    apply List.drop_eq_nil_of_le; omega
  have htake : ((facts.drop 80).drop 80).take 80 = (facts.drop 80).drop 80 :=
    List.take_of_length_le (by omega)
  have hchunks : chunkArray facts 80 =
      [facts.take 80, (facts.drop 80).take 80, (facts.drop 80).drop 80] := by
    rw [chunkArray_cons_eq facts 80 hne (by omega),
      chunkArray_cons_eq (facts.drop 80) 80 hd1 (by omega),
      chunkArray_cons_eq ((facts.drop 80).drop 80) 80 hd2 (by omega),
      htake, hd3, chunkArray_nil_eq]
  refine ⟨?_, ?_, callText (chunkUserPrompt stringify (facts.take 80)),
    callText (chunkUserPrompt stringify ((facts.drop 80).take 80)),
    callText (chunkUserPrompt stringify ((facts.drop 80).drop 80)), ?_, rfl, ?_⟩
  · rw [hchunks]
    simp only [List.map_cons, List.map_nil, List.length_take, List.length_drop, h, h160]
    norm_num
  · rw [hchunks]
    simp only [List.flatten_cons, List.flatten_nil, List.append_nil]
    rw [List.take_append_drop, List.take_append_drop]
  · simp only [reduceToReport, hchunks, List.map_cons, List.map_nil]
  · simp only [reduceToReport, hchunks, List.map_cons, List.map_nil]

/-- Witness for C8 at a concrete 200-fact input. -/
theorem c8_hierarchical_reducer_200_witness :
    (chunkArray (List.replicate 200 sampleFact) 80).map List.length = [80, 80, 40] :=
  (c8_hierarchical_reducer_200 (List.replicate 200 sampleFact) (by rw [List.length_replicate])
    (fun _ => "[]") (fun _ => "md")).1

theorem sorted_cons_le {d0 : Int} {rest : List Int}
    (hs : (d0 :: rest).Sorted (· ≤ ·)) : ∀ x ∈ d0 :: rest, d0 ≤ x := by
  intro x hx
  rcases List.mem_cons.mp hx with rfl | hx'
  · exact le_refl x
  · exact (List.sorted_cons.mp hs).1 x hx'

theorem sorted_le_getLast :
    ∀ {l : List Int}, l.Sorted (· ≤ ·) → ∀ x ∈ l, ∀ h : l ≠ [], x ≤ l.getLast h := by
  intro l
  induction l with
  | nil => intro _ x hx; cases hx
  | cons a t ih =>
    intro hs x hx h
    cases t with
    | nil =>
      rcases List.mem_cons.mp hx with rfl | hx'
      · simp [List.getLast]
      · cases hx'
    | cons b u =>
      rw [List.getLast_cons (by simp : (b :: u) ≠ [])]
      rcases List.mem_cons.mp hx with rfl | hx'
      · exact (List.sorted_cons.mp hs).1 _ (List.getLast_mem _)
      · exact ih (List.sorted_cons.mp hs).2 x hx' _

/-- C9: `computeTimeWindow` reports the window from the minimum to the
maximum parseable published timestamp, formatted `YYYY-MM-DD to YYYY-MM-DD`,
ignoring facts whose `published` is null or unparseable; with published
values 2024-01-03T00:00:00Z and 2024-01-09T00:00:00Z plus one null it yields
"2024-01-03 to 2024-01-09", and with no parseable date it yields the fixed
placeholder "the last week". -/
theorem c9_computeTimeWindow (facts : List Fact) :
    (publishedDates facts ≠ [] →
      ∃ dmin dmax, dmin ∈ publishedDates facts ∧ dmax ∈ publishedDates facts ∧
        (∀ x ∈ publishedDates facts, dmin ≤ x ∧ x ≤ dmax) ∧
        computeTimeWindow facts = fmtDate dmin ++ " to " ++ fmtDate dmax) ∧
    (publishedDates facts = [] → computeTimeWindow facts = "the last week") ∧
    computeTimeWindow [factJan9, factNoDate, factJan3] = "2024-01-03 to 2024-01-09" ∧
    computeTimeWindow [factNoDate] = "the last week" := by
  refine ⟨?_, ?_, by decide, rfl⟩
  · intro hne
    have hperm := List.perm_insertionSort (· ≤ ·) (publishedDates facts)
    have hsorted := List.sorted_insertionSort (· ≤ ·) (publishedDates facts)
    have hsne : List.insertionSort (· ≤ ·) (publishedDates facts) ≠ [] := by
      intro h0
      apply hne
      have h1 : (publishedDates facts).Perm [] := by rw [← h0]; exact hperm.symm
      exact h1.eq_nil
    obtain ⟨d0, rest, hcons⟩ := List.exists_cons_of_ne_nil hsne
    have hmem : ∀ x : Int, x ∈ d0 :: rest ↔ x ∈ publishedDates facts := by
      intro x; rw [← hcons]; exact hperm.mem_iff
    have hsorted' : (d0 :: rest).Sorted (· ≤ ·) := hcons ▸ hsorted
    have hgl : rest.getLastD d0 = (d0 :: rest).getLast (by simp) :=
      (List.getLast_eq_getLastD d0 rest (by simp)).symm
    refine ⟨d0, rest.getLastD d0, (hmem d0).mp (by simp), ?_, ?_, ?_⟩
    · rw [hgl]
      exact (hmem _).mp (List.getLast_mem _)
    · intro x hx
      have hx' : x ∈ d0 :: rest := (hmem x).mpr hx
      refine ⟨sorted_cons_le hsorted' x hx', ?_⟩
      rw [hgl]
      exact sorted_le_getLast hsorted' x hx' _
    · unfold computeTimeWindow
      rw [hcons]
  · intro h0
    unfold computeTimeWindow
    rw [h0]
    rfl

/-- Witness for C9: the empty fact list has no parseable date and yields the
placeholder. -/
theorem c9_computeTimeWindow_witness : computeTimeWindow [] = "the last week" :=
  (c9_computeTimeWindow []).2.1 rfl

end FeedbinSummarize
